import Mathlib

/-!
Shallow embedding of the Polly-API python client (`api_client/`): the
results aggregator/formatter `format_poll_results` and the HTTP client
adapters `fetch_polls`, `get_poll_results`,
`get_poll_results_with_error_handling`, `get_poll_results_summary`,
`vote_on_poll`, `login_and_get_token` and `register_user`.

Python values decoded from JSON bodies are modelled by the inductive
`Polly.Json`, with `Json.null` playing the role of Python `None`.  The
network is modelled by an explicit `Net` outcome passed to each adapter
(the response the server would give, or a transport exception); each
adapter returns its Python result or exception together with a `Bool`
recording whether the HTTP request was actually issued.
-/

namespace Polly

/-- JSON values as decoded by `response.json()`; `Json.null` models Python `None`. -/
inductive Json where
  | null
  | bool (b : Bool)
  | num (n : Int)
  | str (s : String)
  | arr (elems : List Json)
  | obj (fields : List (String × Json))

/-- Dictionary lookup: models `d[key]` / `key in d` on a decoded JSON object. -/
def lookupField (fields : List (String × Json)) (key : String) : Option Json :=
  match fields with
  | [] => none
  | (k, v) :: rest => if k = key then some v else lookupField rest key

/-- One entry of the `results` list of a poll-results payload
(`{option_id, text, vote_count}`); each field is optional because the
source reads them with `dict.get` and a default. -/
structure OptionTally where
  option_id : Option Int
  text : Option String
  vote_count : Option Int
deriving DecidableEq, Repr

/-- The poll-results payload `{poll_id, question, results}`; fields are
optional because the source reads them with `dict.get` and a default.
The formatter takes an `Option ResultsData`, `none` standing for a falsy
`results_data` (Python `None` or an empty dict). -/
structure ResultsData where
  poll_id : Option Int
  question : Option String
  results : Option (List OptionTally)
deriving DecidableEq, Repr

/-- `result.get("vote_count", 0)`: a missing vote count counts as zero. -/
def voteCountOf (t : OptionTally) : Int := t.vote_count.getD 0

/-- Stable insertion into a descending-by-vote-count list: the new element
goes before the first strictly smaller entry, hence before any later
equal-count entry.  Together with `sortByVotesDesc` this is extensionally
the stable descending sort `sorted(results, key=..., reverse=True)` of the
source (a stable sort by a given key is unique). -/
def insertByVotesDesc (x : OptionTally) : List OptionTally → List OptionTally
  | [] => [x]
  | y :: ys => if voteCountOf y ≤ voteCountOf x then x :: y :: ys else y :: insertByVotesDesc x ys

/-- `sorted(results, key=lambda x: x.get("vote_count", 0), reverse=True)`. -/
def sortByVotesDesc : List OptionTally → List OptionTally
  | [] => []
  | x :: xs => insertByVotesDesc x (sortByVotesDesc xs)

/-- Round to the nearest integer, ties to even — the rounding used by
Python's `%.1f` formatting (idealized over ℚ rather than binary floats;
all inputs exercised here are exactly representable). -/
def roundHalfEvenQ (q : ℚ) : Int :=
  let f := q.floor
  let frac := q - (f : ℚ)
  if frac < 1 / 2 then f
  else if 1 / 2 < frac then f + 1
  else if f % 2 = 0 then f else f + 1

/-- `f"{x:.1f}"`: render a rational to one decimal place. -/
def fmt1 (q : ℚ) : String :=
  let t := roundHalfEvenQ (q * 10)
  let a := t.natAbs
  (if t < 0 then "-" else "") ++ toString (a / 10) ++ "." ++ toString (a % 10)

/-- `(vote_count / total_votes * 100) if total_votes > 0 else 0`. -/
def pctOf (vc total : Int) : ℚ :=
  if 0 < total then (vc : ℚ) / (total : ℚ) * 100 else 0

/-- The first line `f"Poll #{poll_id}: {question}\n"` of the report, with
the `dict.get` defaults `"Unknown"` and `"Unknown question"`. -/
def headerText (rd : ResultsData) : String :=
  "Poll #" ++ (match rd.poll_id with | some n => toString n | none => "Unknown")
    ++ ": " ++ rd.question.getD "Unknown question"

/-- Header line plus its `=` underline (`"=" * (len(output) - 1)`) and a
blank line, as built by the first two statements of `format_poll_results`. -/
def pollHeader (rd : ResultsData) : String :=
  (headerText rd ++ "\n") ++
    (String.mk (List.replicate ((headerText rd ++ "\n").length - 1) '=') ++ "\n\n")

/-- `f"Total votes: {total_votes}\n\n"`. -/
def totalLine (n : Int) : String := "Total votes: " ++ toString n ++ "\n\n"

/-- `f"   Votes: {vote_count} ({percentage:.1f}%)\n"`. -/
def votesLine (vc : Int) (pct : ℚ) : String :=
  "   Votes: " ++ toString vc ++ " (" ++ fmt1 pct ++ "%)\n"

/-- One per-option block of the loop body of `format_poll_results`:
rank line, votes line with percentage, option-id line, blank line. -/
def optionBlock (i : Nat) (t : OptionTally) (total : Int) : String :=
  (toString i ++ ". " ++ t.text.getD "Unknown option" ++ "\n") ++
    (votesLine (voteCountOf t) (pctOf (voteCountOf t) total) ++
      ("   Option ID: " ++
        (match t.option_id with | some n => toString n | none => "Unknown") ++ "\n\n"))

/-- `for i, result in enumerate(sorted_results, 1): ...` rendered blocks. -/
def renderBlocks (total : Int) : Nat → List OptionTally → String
  | _, [] => ""
  | i, t :: ts => optionBlock i t total ++ renderBlocks total (i + 1) ts

/-- `format_poll_results(results_data)` from `api_client/get_poll_results.py`. -/
def format_poll_results (results_data : Option ResultsData) : String :=
  match results_data with
  | none => "No results data available"
  | some rd =>
    let results := rd.results.getD []
    if results.isEmpty then
      pollHeader rd ++ "No votes cast yet.\n"
    else
      let sorted_results := sortByVotesDesc results
      let total_votes := (sorted_results.map voteCountOf).sum
      pollHeader rd ++ (totalLine total_votes ++ renderBlocks total_votes 1 sorted_results)

/-- Substring containment: `pat` occurs contiguously in `s`. -/
def strContains (s pat : String) : Prop := pat.data <:+: s.data

instance (s pat : String) : Decidable (strContains s pat) :=
  List.decidableInfix pat.data s.data

/-- An HTTP response: status code, reason phrase, and the decoded JSON
body (`none` when `response.json()` would fail to parse the body). -/
structure Resp where
  status : Int
  reason : String
  body : Option Json

/-- Outcome of `requests.get` / `requests.post`: a response, or one of the
transport exceptions the source handles (each carrying its `str(e)`). -/
inductive Net where
  | resp (r : Resp)
  | connError (msg : String)
  | timeout (msg : String)
  | reqError (msg : String)

/-- Python exceptions raised by the adapters: `ValueError(msg)`,
the two-argument `ValueError(400, msg)` used by `fetch_polls` and
`register_user`, `requests.exceptions.HTTPError` (from
`raise_for_status`), the transport exceptions, the re-raised
`requests.exceptions.RequestException(msg)`, and `KeyError`. -/
inductive PyError where
  | valueError (msg : String)
  | valueErrorStatus (status : Int) (msg : String)
  | httpError (status : Int) (reason : String)
  | connectionError (msg : String)
  | timeoutError (msg : String)
  | requestException (msg : String)
  | keyError (key : String)
deriving DecidableEq, Repr

/-- Which `PyError`s are instances of `requests.exceptions.RequestException`
(`HTTPError`, `ConnectionError`, `Timeout` and `RequestException` itself are;
`ValueError` and `KeyError` are not). -/
def isRequestExc : PyError → Bool
  | .httpError _ _ => true
  | .connectionError _ => true
  | .timeoutError _ => true
  | .requestException _ => true
  | _ => false

/-- The message of `requests.exceptions.HTTPError`, `str(e)`
(modelled without the trailing `for url: ...` part, which no claim
inspects). -/
def httpErrorStr (status : Int) (reason : String) : String :=
  toString status ++ (if status < 500 then " Client Error: " else " Server Error: ") ++ reason

/-- `str(e)` of a `PyError`, used when an adapter re-raises a caught
exception with an enriched message. -/
def pyStr : PyError → String
  | .valueError m => m
  | .valueErrorStatus s m => "(" ++ toString s ++ ", " ++ m ++ ")"
  | .httpError s r => httpErrorStr s r
  | .connectionError m => m
  | .timeoutError m => m
  | .requestException m => m
  | .keyError k => k

/-- `response.raise_for_status()`: raises `HTTPError` exactly for status
codes in `[400, 600)`, and is a no-op otherwise. -/
def raise_for_status (r : Resp) : Except PyError Unit :=
  if 400 ≤ r.status ∧ r.status < 600 then Except.error (.httpError r.status r.reason)
  else Except.ok ()

/-- `response.json()`: the decoded body, or (in `requests ≥ 2.27`) a
`JSONDecodeError`, which is a `RequestException`, when the body does not
parse. -/
def respJson (r : Resp) : Except PyError Json :=
  match r.body with
  | some j => Except.ok j
  | none => Except.error (.requestException "Expecting value: line 1 column 1 (char 0)")

/-- The body of a `try: response = requests.get/post(...) ...` block whose
only handler is `except requests.exceptions.RequestException`: transport
exceptions become the corresponding `PyError` and the handler `wrap` is
applied to any caught `RequestException`; other exceptions propagate. -/
def tryRequest (net : Net) (onResp : Resp → Except PyError (Option Json))
    (wrap : PyError → String) : Except PyError (Option Json) :=
  let attempt : Except PyError (Option Json) :=
    match net with
    | .resp r => onResp r
    | .connError m => Except.error (.connectionError m)
    | .timeout m => Except.error (.timeoutError m)
    | .reqError m => Except.error (.requestException m)
  match attempt with
  | .ok v => .ok v
  | .error e =>
    if isRequestExc e then .error (.requestException (wrap e)) else .error e

/-- `fetch_polls(skip, limit)` from `api_client/fetch_polls.py`, over a
network outcome `net`.  The returned `Bool` records whether the HTTP
request was issued.  `Except.ok none` is Python's implicit `return None`
(reached when the status is neither 200 nor in `[400, 600)`). -/
def fetch_polls (skip limit : Int) (net : Net) : Except PyError (Option Json) × Bool :=
  if skip < 0 then
    (Except.error (.valueErrorStatus 400 "Skip parameter must be non-negative"), false)
  else if limit ≤ 0 then
    (Except.error (.valueErrorStatus 400 "Limit parameter must be positive"), false)
  else
    (tryRequest net
      (fun r =>
        if r.status = 200 then (respJson r).map some
        else match raise_for_status r with
          | .error e => .error e
          | .ok _ => .ok none)
      (fun _ => "Failed to fetch polls"), true)

/-- `get_poll_results(poll_id)` from `api_client/get_poll_results.py`.
The guard `not poll_id or poll_id <= 0` on an `int` is `poll_id ≤ 0`. -/
def get_poll_results (poll_id : Int) (net : Net) : Except PyError (Option Json) × Bool :=
  if poll_id ≤ 0 then
    (Except.error (.valueError "Poll ID must be a positive integer"), false)
  else
    (tryRequest net
      (fun r =>
        if r.status = 200 then (respJson r).map some
        else if r.status = 404 then .error (.valueError "Poll not found")
        else match raise_for_status r with
          | .error e => .error e
          | .ok _ => .ok none)
      (fun e => "Failed to get poll results: " ++ pyStr e), true)

/-- `vote_on_poll(poll_id, option_id, access_token)` from
`api_client/vote_poll.py`. -/
def vote_on_poll (poll_id option_id : Int) (access_token : String) (net : Net) :
    Except PyError (Option Json) × Bool :=
  if poll_id ≤ 0 then
    (Except.error (.valueError "Poll ID must be a positive integer"), false)
  else if option_id ≤ 0 then
    (Except.error (.valueError "Option ID must be a positive integer"), false)
  else if access_token = "" then
    (Except.error (.valueError "Access token is required for voting"), false)
  else
    (tryRequest net
      (fun r =>
        if r.status = 200 then (respJson r).map some
        else if r.status = 401 then
          .error (.valueError "Unauthorized: Invalid or expired access token")
        else if r.status = 404 then .error (.valueError "Poll or option not found")
        else match raise_for_status r with
          | .error e => .error e
          | .ok _ => .ok none)
      (fun e => "Failed to vote on poll: " ++ pyStr e), true)

/-- `login_and_get_token(username, password)` from `api_client/vote_poll.py`.
The source performs no validation of `username`/`password`: the request is
always issued.  `token_data["access_token"]` on a decoded dict is modelled
by `lookupField` (a missing key raises `KeyError`; indexing a non-dict,
which raises `TypeError` in Python, is folded into the same error case). -/
def login_and_get_token (username password : String) (net : Net) :
    Except PyError (Option Json) × Bool :=
  let _ := (username, password)
  (tryRequest net
    (fun r =>
      if r.status = 200 then
        match respJson r with
        | .error e => .error e
        | .ok (.obj fields) =>
          match lookupField fields "access_token" with
          | some v => .ok (some v)
          | none => .error (.keyError "access_token")
        | .ok _ => .error (.keyError "access_token")
      else if r.status = 400 then .error (.valueError "Incorrect username or password")
      else match raise_for_status r with
        | .error e => .error e
        | .ok _ => .ok none)
    (fun e => "Failed to login: " ++ pyStr e), true)

/-- `register_user(username, password)` from `api_client/register_user.py`.
The source has no `try`/`except`: exceptions propagate unwrapped. -/
def register_user (username password : String) (net : Net) :
    Except PyError (Option Json) × Bool :=
  if username = "" ∨ password = "" then
    (Except.error (.valueErrorStatus 400 "Username and password are required"), false)
  else
    match net with
    | .connError m => (Except.error (.connectionError m), true)
    | .timeout m => (Except.error (.timeoutError m), true)
    | .reqError m => (Except.error (.requestException m), true)
    | .resp r =>
      if r.status = 200 then ((respJson r).map some, true)
      else if r.status = 400 then
        (Except.error (.valueErrorStatus 400 "Username already registered"), true)
      else match raise_for_status r with
        | .error e => (Except.error e, true)
        | .ok _ => (Except.ok none, true)

/-- `get_poll_results_with_error_handling(poll_id)` from
`api_client/get_poll_results.py`, returning the Python triple
`(success, results_data, error_message)` with `Json.null` for `None`.
A 200 response whose body fails to parse is reported through the
`json.JSONDecodeError` handler of the source. -/
def get_poll_results_with_error_handling (poll_id : Int) (net : Net) :
    Bool × Json × Json :=
  if poll_id ≤ 0 then (false, .null, .str "Poll ID must be a positive integer")
  else
    match net with
    | .connError _ => (false, .null, .str "Connection error: Could not connect to the server")
    | .timeout _ => (false, .null, .str "Request timeout: Server took too long to respond")
    | .reqError m => (false, .null, .str ("Request error: " ++ m))
    | .resp r =>
      if r.status = 200 then
        match r.body with
        | some j => (true, j, .null)
        | none => (false, .null, .str "Invalid JSON response from server")
      else if r.status = 404 then (false, .null, .str "Poll not found")
      else
        let base : Json := .str ("HTTP " ++ toString r.status ++ ": " ++ r.reason)
        match r.body with
        | some (.obj fields) =>
          (false, .null,
            match lookupField fields "detail" with
            | some v => v
            | none => base)
        | _ => (false, .null, base)

/-- `int` field of a decoded JSON value, else nothing. -/
def jsonInt : Json → Option Int
  | .num n => some n
  | _ => none

/-- `str` field of a decoded JSON value, else nothing. -/
def jsonStr : Json → Option String
  | .str s => some s
  | _ => none

/-- Read one entry of the `results` array as the fields
`format_poll_results` accesses with `dict.get`. -/
def decodeTally : Json → OptionTally
  | .obj fields =>
    { option_id := (lookupField fields "option_id").bind jsonInt
      text := (lookupField fields "text").bind jsonStr
      vote_count := (lookupField fields "vote_count").bind jsonInt }
  | _ => { option_id := none, text := none, vote_count := none }

/-- Read a decoded poll-results payload as the `ResultsData` view used by
`format_poll_results`; `none` is a falsy `results_data` (Python `None` or
an empty dict).  Responses outside the PollResults schema (non-dict
payloads, on which the Python formatter would raise) are outside the
embedding. -/
def decodeReport : Option Json → Option ResultsData
  | some (.obj fields) =>
    if fields.isEmpty then none
    else
      some
        { poll_id := (lookupField fields "poll_id").bind jsonInt
          question := (lookupField fields "question").bind jsonStr
          results := (lookupField fields "results").bind fun j =>
            match j with
            | .arr xs => some (xs.map decodeTally)
            | _ => none }
  | _ => none

/-- `get_poll_results_summary(poll_id)` from `api_client/get_poll_results.py`:
`format_poll_results(get_poll_results(poll_id, base_url))`; the formatter
runs only on a successful fetch. -/
def get_poll_results_summary (poll_id : Int) (net : Net) : Except PyError String × Bool :=
  match get_poll_results poll_id net with
  | (.ok d, issued) => (.ok (format_poll_results (decodeReport d)), issued)
  | (.error e, issued) => (.error e, issued)

/-! ### String-containment helpers -/

theorem strContains_sandwich (a pat b : String) : strContains (a ++ (pat ++ b)) pat :=
  ⟨a.data, b.data, by simp⟩

theorem strContains_isPre (pat b : String) : strContains (pat ++ b) pat :=
  ⟨[], b.data, by simp⟩

theorem strContains_left (s t pat : String) (h : strContains t pat) :
    strContains (s ++ t) pat := by
  obtain ⟨u, v, huv⟩ := h
  exact ⟨s.data ++ u, v, by simp [← huv]⟩

theorem strContains_right (s t pat : String) (h : strContains s pat) :
    strContains (s ++ t) pat := by
  obtain ⟨u, v, huv⟩ := h
  exact ⟨u, v ++ t.data, by simp [← huv]⟩

/-! ### The sort used by `format_poll_results` is a stable descending sort -/

theorem insertByVotesDesc_perm (x : OptionTally) (l : List OptionTally) :
    List.Perm (insertByVotesDesc x l) (x :: l) := by
  induction l with
  | nil => exact List.Perm.refl _
  | cons y ys ih =>
    by_cases h : voteCountOf y ≤ voteCountOf x
    · simp only [insertByVotesDesc, if_pos h]
      exact List.Perm.refl _
    · simp only [insertByVotesDesc, if_neg h]
      exact (ih.cons y).trans (List.Perm.swap x y ys)

theorem sortByVotesDesc_perm (l : List OptionTally) : List.Perm (sortByVotesDesc l) l := by
  induction l with
  | nil => exact List.Perm.refl _
  | cons x xs ih =>
    exact (insertByVotesDesc_perm x (sortByVotesDesc xs)).trans (ih.cons x)

theorem sum_map_sortByVotesDesc (l : List OptionTally) :
    ((sortByVotesDesc l).map voteCountOf).sum = (l.map voteCountOf).sum :=
  ((sortByVotesDesc_perm l).map voteCountOf).sum_eq

theorem pairwise_insertByVotesDesc (x : OptionTally) (l : List OptionTally)
    (h : List.Pairwise (fun a b => voteCountOf b ≤ voteCountOf a) l) :
    List.Pairwise (fun a b => voteCountOf b ≤ voteCountOf a) (insertByVotesDesc x l) := by
  induction l with
  | nil => simp [insertByVotesDesc]
  | cons y ys ih =>
    obtain ⟨hy, hys⟩ := List.pairwise_cons.mp h
    by_cases hc : voteCountOf y ≤ voteCountOf x
    · simp only [insertByVotesDesc, if_pos hc]
      refine List.pairwise_cons.mpr ⟨?_, h⟩
      intro z hz
      rcases List.mem_cons.mp hz with rfl | hz'
      · exact hc
      · exact le_trans (hy z hz') hc
    · simp only [insertByVotesDesc, if_neg hc]
      refine List.pairwise_cons.mpr ⟨?_, ih hys⟩
      intro z hz
      rcases List.mem_cons.mp ((insertByVotesDesc_perm x ys).mem_iff.mp hz) with rfl | hz'
      · exact le_of_lt (lt_of_not_le hc)
      · exact hy z hz'

theorem pairwise_sortByVotesDesc (l : List OptionTally) :
    List.Pairwise (fun a b => voteCountOf b ≤ voteCountOf a) (sortByVotesDesc l) := by
  induction l with
  | nil => simp [sortByVotesDesc]
  | cons x xs ih => exact pairwise_insertByVotesDesc x (sortByVotesDesc xs) ih

theorem filter_insertByVotesDesc (x : OptionTally) (l : List OptionTally) (c : Int) :
    (insertByVotesDesc x l).filter (fun t => voteCountOf t == c) =
      ((x :: l).filter fun t => voteCountOf t == c) := by
  induction l with
  | nil => rfl
  | cons y ys ih =>
    by_cases hc : voteCountOf y ≤ voteCountOf x
    · simp [insertByVotesDesc, hc]
    · have hxy : voteCountOf x < voteCountOf y := lt_of_not_le hc
      by_cases hx : voteCountOf x = c
      · have hy : ¬ voteCountOf y = c := by omega
        simp only [insertByVotesDesc, if_neg hc]
        simp [List.filter_cons, beq_iff_eq, hx, hy, ih]
      · simp only [insertByVotesDesc, if_neg hc]
        simp [List.filter_cons, beq_iff_eq, hx, ih]

theorem filter_sortByVotesDesc (l : List OptionTally) (c : Int) :
    (sortByVotesDesc l).filter (fun t => voteCountOf t == c) =
      (l.filter fun t => voteCountOf t == c) := by
  induction l with
  | nil => rfl
  | cons x xs ih =>
    rw [sortByVotesDesc, filter_insertByVotesDesc, List.filter_cons, List.filter_cons, ih]

theorem strContains_refl (s : String) : strContains s s :=
  ⟨[], [], by simp⟩

theorem renderBlocks_contains_votesLine (total : Int) (t : OptionTally) :
    ∀ (ts : List OptionTally) (i : Nat), t ∈ ts →
      strContains (renderBlocks total i ts)
        (votesLine (voteCountOf t) (pctOf (voteCountOf t) total)) := by
  intro ts
  induction ts with
  | nil => intro i h; cases h
  | cons u us ih =>
    intro i h
    simp only [renderBlocks]
    rcases List.mem_cons.mp h with rfl | h'
    · refine strContains_right _ _ _ ?_
      unfold optionBlock
      exact strContains_sandwich _ _ _
    · exact strContains_left _ _ _ (ih (i + 1) h')

/-! ### Claims about the results aggregator/formatter -/

/-- C1: for every report whose `results` sequence is present and non-empty,
the `Total votes` line printed by `format_poll_results` reports exactly the
sum of the `vote_count` fields of the entries of `results`, a missing
`vote_count` counting as zero. -/
theorem c1_total_votes_is_sum (rd : ResultsData) (l : List OptionTally)
    (hres : rd.results = some l) (hne : l ≠ []) :
    strContains (format_poll_results (some rd)) (totalLine (l.map voteCountOf).sum) := by
  obtain ⟨x, xs, rfl⟩ := List.exists_cons_of_ne_nil hne
  simp only [format_poll_results, hres, Option.getD_some, List.isEmpty_cons,
    Bool.false_eq_true, if_false]
  rw [sum_map_sortByVotesDesc]
  exact strContains_sandwich _ _ _

theorem c1_witness :
    strContains
      (format_poll_results (some ⟨some 1, some "Q", some [⟨some 1, some "A", some 3⟩]⟩))
      (totalLine (([⟨some 1, some "A", some 3⟩] : List OptionTally).map voteCountOf).sum) :=
  c1_total_votes_is_sum _ _ rfl (by decide)

/-- C2: the per-option blocks are rendered in the order given by
`sortByVotesDesc`, which sorts by `vote_count` descending and is stable:
for every input list, filtering the sorted list down to any fixed vote
count yields exactly the same subsequence as filtering the input, so
equal-count entries keep their relative input order; in particular the
counts `[5, 5, 2]` in that input order sort to the two 5-count options
first, in their original order, followed by the 2-count option. -/
theorem c2_sort_descending_stable :
    (∀ l : List OptionTally,
        List.Pairwise (fun a b => voteCountOf b ≤ voteCountOf a) (sortByVotesDesc l) ∧
        ∀ c : Int,
          (sortByVotesDesc l).filter (fun t => voteCountOf t == c) =
            l.filter (fun t => voteCountOf t == c)) ∧
    sortByVotesDesc
        [⟨some 1, some "A", some 5⟩, ⟨some 2, some "B", some 5⟩, ⟨some 3, some "C", some 2⟩] =
      [⟨some 1, some "A", some 5⟩, ⟨some 2, some "B", some 5⟩, ⟨some 3, some "C", some 2⟩] ∧
    format_poll_results
        (some ⟨some 1, some "Q",
          some [⟨some 1, some "A", some 5⟩, ⟨some 2, some "B", some 5⟩,
            ⟨some 3, some "C", some 2⟩]⟩) =
      "Poll #1: Q\n==========\n\nTotal votes: 12\n\n1. A\n   Votes: 5 (41.7%)\n   Option ID: 1\n\n2. B\n   Votes: 5 (41.7%)\n   Option ID: 2\n\n3. C\n   Votes: 2 (16.7%)\n   Option ID: 3\n\n" :=
  ⟨fun l => ⟨pairwise_sortByVotesDesc l, fun c => filter_sortByVotesDesc l c⟩, by decide!,
    by decide!⟩

/-- C5: on the two-option report with counts 3 and 1 the formatter reports
4 total votes and renders 75.0% and 25.0%, to one decimal place, for
options A and B respectively (A ranked first). -/
theorem c5_concrete_report :
    format_poll_results
        (some ⟨some 1, some "Q",
          some [⟨some 1, some "A", some 3⟩, ⟨some 2, some "B", some 1⟩]⟩) =
      "Poll #1: Q\n==========\n\nTotal votes: 4\n\n1. A\n   Votes: 3 (75.0%)\n   Option ID: 1\n\n2. B\n   Votes: 1 (25.0%)\n   Option ID: 2\n\n" := by
  decide!

/-- C3 counterexample: with an absent (falsy) report `format_poll_results`
returns the fixed string "No results data available", which contains
neither a `Poll #` header nor any digit, so it does not include the poll
identifier and question header and does not report a total of zero votes. -/
theorem c3_counterexample :
    format_poll_results none = "No results data available" ∧
    ¬ strContains (format_poll_results none) "Poll #" ∧
    ¬ strContains (format_poll_results none) "0" := by
  refine ⟨rfl, ?_, ?_⟩ <;> decide

/-- C3 (amended): with an absent (falsy) report the formatter returns the
fixed message "No results data available", with no header and no total;
with a present report whose `results` sequence is absent or empty it
returns, without error, exactly the `Poll #<id>: <question>` header block
followed by "No votes cast yet." — in particular the output contains the
header and the no-results message, and no `Total votes` line is printed. -/
theorem c3_empty_results_message (rd : ResultsData)
    (h : rd.results = none ∨ rd.results = some []) :
    format_poll_results (some rd) = pollHeader rd ++ "No votes cast yet.\n" ∧
    strContains (format_poll_results (some rd)) (headerText rd) ∧
    strContains (format_poll_results (some rd)) "No votes cast yet.\n" ∧
    format_poll_results none = "No results data available" := by
  have hempty : rd.results.getD [] = [] := by rcases h with h | h <;> simp [h]
  have hfmt : format_poll_results (some rd) = pollHeader rd ++ "No votes cast yet.\n" := by
    simp [format_poll_results, hempty]
  refine ⟨hfmt, ?_, ?_, rfl⟩
  · rw [hfmt]
    unfold pollHeader
    exact strContains_right _ _ _
      (strContains_right _ _ _ (strContains_right _ _ _ (strContains_refl _)))
  · rw [hfmt]
    exact strContains_left _ _ _ (strContains_refl _)

theorem c3_witness :
    format_poll_results (some ⟨some 9, some "W", some []⟩) =
      pollHeader ⟨some 9, some "W", some []⟩ ++ "No votes cast yet.\n" :=
  (c3_empty_results_message _ (Or.inr rfl)).1

/-- C4: `format_poll_results` never divides by zero: every rendered votes
line shows the percentage `vote_count / total_votes * 100` when the total
is positive and `0` otherwise, and on an empty results list the output is
exactly the header plus "No votes cast yet." — no percentage is computed
or rendered. -/
theorem c4_no_division_by_zero (rd : ResultsData) (l : List OptionTally)
    (hres : rd.results = some l) :
    (l = [] → format_poll_results (some rd) = pollHeader rd ++ "No votes cast yet.\n") ∧
    ∀ t ∈ l,
      strContains (format_poll_results (some rd))
        (votesLine (voteCountOf t)
          (if 0 < (l.map voteCountOf).sum
            then (voteCountOf t : ℚ) / ((l.map voteCountOf).sum : ℚ) * 100
            else 0)) := by
  constructor
  · rintro rfl
    simp [format_poll_results, hres]
  · intro t ht
    have hne : l ≠ [] := by rintro rfl; cases ht
    obtain ⟨x, xs, rfl⟩ := List.exists_cons_of_ne_nil hne
    simp only [format_poll_results, hres, Option.getD_some, List.isEmpty_cons,
      Bool.false_eq_true, if_false]
    have hpct :
        (if 0 < ((x :: xs).map voteCountOf).sum
          then (voteCountOf t : ℚ) / (((x :: xs).map voteCountOf).sum : ℚ) * 100
          else 0) = pctOf (voteCountOf t) ((x :: xs).map voteCountOf).sum := rfl
    rw [hpct, sum_map_sortByVotesDesc]
    refine strContains_left _ _ _ (strContains_left _ _ _ ?_)
    exact renderBlocks_contains_votesLine _ t _ 1
      ((sortByVotesDesc_perm (x :: xs)).mem_iff.mpr ht)

theorem c4_witness :
    (format_poll_results (some ⟨some 7, some "E", some []⟩) =
      pollHeader ⟨some 7, some "E", some []⟩ ++ "No votes cast yet.\n") ∧
    strContains
      (format_poll_results (some ⟨some 1, some "Q",
        some [⟨some 1, some "A", some 3⟩, ⟨some 2, some "B", some 1⟩]⟩))
      (votesLine (voteCountOf ⟨some 1, some "A", some 3⟩)
        (if 0 <
            (([⟨some 1, some "A", some 3⟩, ⟨some 2, some "B", some 1⟩] :
              List OptionTally).map voteCountOf).sum
          then (voteCountOf ⟨some 1, some "A", some 3⟩ : ℚ) /
              (((([⟨some 1, some "A", some 3⟩, ⟨some 2, some "B", some 1⟩] :
                List OptionTally).map voteCountOf).sum : Int) : ℚ) * 100
          else 0)) :=
  ⟨(c4_no_division_by_zero _ [] rfl).1 rfl,
    (c4_no_division_by_zero _ _ rfl).2 _ (List.mem_cons_self _ _)⟩

/-! ### Claims about the request/response adapters -/

/-- C6 counterexample: `login_and_get_token` performs no local validation:
with empty username and password the HTTP request is still issued
(issued-flag `true`), and the failure comes from the server's 400
response, not from a local check. -/
theorem c6_counterexample :
    (login_and_get_token "" "" (Net.resp ⟨400, "Bad Request", none⟩)).2 = true ∧
    login_and_get_token "" "" (Net.resp ⟨400, "Bad Request", none⟩) =
      (Except.error (.valueError "Incorrect username or password"), true) :=
  ⟨rfl, rfl⟩

/-- C6 (amended): every validating adapter validates before any network
call — `fetch_polls` rejects `skip < 0` and `limit ≤ 0`,
`get_poll_results` rejects `poll_id ≤ 0`, `vote_on_poll` rejects
`poll_id ≤ 0`, `option_id ≤ 0` and an empty access token, and
`register_user` rejects an empty username or password, each failing
locally with the issued-flag `false` for every network outcome —
but `login_and_get_token` performs no validation and always issues the
request, even with empty credentials. -/
theorem c6_validation_before_request (net : Net) :
    (∀ skip limit : Int, skip < 0 →
      fetch_polls skip limit net =
        (Except.error (.valueErrorStatus 400 "Skip parameter must be non-negative"), false)) ∧
    (∀ skip limit : Int, 0 ≤ skip → limit ≤ 0 →
      fetch_polls skip limit net =
        (Except.error (.valueErrorStatus 400 "Limit parameter must be positive"), false)) ∧
    (∀ pid : Int, pid ≤ 0 →
      get_poll_results pid net =
        (Except.error (.valueError "Poll ID must be a positive integer"), false)) ∧
    (∀ pid oid : Int, ∀ tok : String, pid ≤ 0 →
      vote_on_poll pid oid tok net =
        (Except.error (.valueError "Poll ID must be a positive integer"), false)) ∧
    (∀ pid oid : Int, ∀ tok : String, 0 < pid → oid ≤ 0 →
      vote_on_poll pid oid tok net =
        (Except.error (.valueError "Option ID must be a positive integer"), false)) ∧
    (∀ pid oid : Int, 0 < pid → 0 < oid →
      vote_on_poll pid oid "" net =
        (Except.error (.valueError "Access token is required for voting"), false)) ∧
    (∀ u p : String, u = "" ∨ p = "" →
      register_user u p net =
        (Except.error (.valueErrorStatus 400 "Username and password are required"), false)) ∧
    (∀ u p : String, (login_and_get_token u p net).2 = true) := by
  refine ⟨?_, ?_, ?_, ?_, ?_, ?_, ?_, ?_⟩
  · intro skip limit h
    simp [fetch_polls, h]
  · intro skip limit h1 h2
    simp [fetch_polls, not_lt.mpr h1, h2]
  · intro pid h
    simp [get_poll_results, h]
  · intro pid oid tok h
    simp [vote_on_poll, h]
  · intro pid oid tok h1 h2
    simp [vote_on_poll, not_le.mpr h1, h2]
  · intro pid oid h1 h2
    simp [vote_on_poll, not_le.mpr h1, not_le.mpr h2]
  · intro u p h
    simp [register_user, h]
  · intro u p
    rfl

theorem c6_witness :
    fetch_polls (-1) 10 (Net.resp ⟨200, "OK", some Json.null⟩) =
      (Except.error (.valueErrorStatus 400 "Skip parameter must be non-negative"), false) ∧
    fetch_polls 0 0 (Net.resp ⟨200, "OK", some Json.null⟩) =
      (Except.error (.valueErrorStatus 400 "Limit parameter must be positive"), false) ∧
    get_poll_results 0 (Net.resp ⟨200, "OK", some Json.null⟩) =
      (Except.error (.valueError "Poll ID must be a positive integer"), false) ∧
    vote_on_poll 0 1 "tok" (Net.resp ⟨200, "OK", some Json.null⟩) =
      (Except.error (.valueError "Poll ID must be a positive integer"), false) ∧
    vote_on_poll 1 0 "tok" (Net.resp ⟨200, "OK", some Json.null⟩) =
      (Except.error (.valueError "Option ID must be a positive integer"), false) ∧
    vote_on_poll 1 1 "" (Net.resp ⟨200, "OK", some Json.null⟩) =
      (Except.error (.valueError "Access token is required for voting"), false) ∧
    register_user "" "pw" (Net.resp ⟨200, "OK", some Json.null⟩) =
      (Except.error (.valueErrorStatus 400 "Username and password are required"), false) ∧
    (login_and_get_token "u" "p" (Net.resp ⟨200, "OK", some Json.null⟩)).2 = true :=
  ⟨(c6_validation_before_request _).1 (-1) 10 (by decide),
    (c6_validation_before_request _).2.1 0 0 (by decide) (by decide),
    (c6_validation_before_request _).2.2.1 0 (by decide),
    (c6_validation_before_request _).2.2.2.1 0 1 "tok" (by decide),
    (c6_validation_before_request _).2.2.2.2.1 1 0 "tok" (by decide) (by decide),
    (c6_validation_before_request _).2.2.2.2.2.1 1 1 (by decide) (by decide),
    (c6_validation_before_request _).2.2.2.2.2.2.1 "" "pw" (Or.inl rfl),
    (c6_validation_before_request _).2.2.2.2.2.2.2 "u" "p"⟩

/-- C7: with a valid poll id, a 404 response makes `get_poll_results`
raise the domain failure ValueError "Poll not found" — which is not a
`RequestException`, i.e. distinct from a transport failure — makes
`get_poll_results_with_error_handling` return failure with message
"Poll not found", and makes `get_poll_results_summary` propagate that
error, so the formatter is never invoked on such a response. -/
theorem c7_poll_not_found (pid : Int) (r : Resp) (hp : 0 < pid) (hs : r.status = 404) :
    get_poll_results pid (Net.resp r) =
      (Except.error (.valueError "Poll not found"), true) ∧
    get_poll_results_with_error_handling pid (Net.resp r) =
      (false, Json.null, Json.str "Poll not found") ∧
    get_poll_results_summary pid (Net.resp r) =
      (Except.error (.valueError "Poll not found"), true) ∧
    isRequestExc (.valueError "Poll not found") = false := by
  have hnp : ¬ pid ≤ 0 := not_le.mpr hp
  have h1 : get_poll_results pid (Net.resp r) =
      (Except.error (.valueError "Poll not found"), true) := by
    simp [get_poll_results, tryRequest, hnp, hs, isRequestExc]
  refine ⟨h1, ?_, ?_, rfl⟩
  · simp [get_poll_results_with_error_handling, hnp, hs]
  · simp [get_poll_results_summary, h1]

theorem c7_witness :
    get_poll_results 999 (Net.resp ⟨404, "Not Found", none⟩) =
      (Except.error (.valueError "Poll not found"), true) ∧
    get_poll_results_with_error_handling 999 (Net.resp ⟨404, "Not Found", none⟩) =
      (false, Json.null, Json.str "Poll not found") ∧
    get_poll_results_summary 999 (Net.resp ⟨404, "Not Found", none⟩) =
      (Except.error (.valueError "Poll not found"), true) ∧
    isRequestExc (.valueError "Poll not found") = false :=
  c7_poll_not_found 999 ⟨404, "Not Found", none⟩ (by decide) rfl

/-- C8 counterexample: a 204 response has a status that is neither 200 nor
an HTTP-error status, so `raise_for_status` is a no-op and `fetch_polls`
falls off the end of the Python function, returning `None` normally
instead of failing. -/
theorem c8_counterexample :
    fetch_polls 0 10 (Net.resp ⟨204, "No Content", none⟩) = (Except.ok none, true) :=
  rfl

/-- C8 (amended): for a response status in `[400, 600)` — every status
`raise_for_status` treats as an HTTP error — `fetch_polls` fails with the
generic RequestException "Failed to fetch polls"; for a non-200 status
outside that range it returns `None` normally, without error. -/
theorem c8_non_200_behaviour (skip limit : Int) (r : Resp) (hsk : 0 ≤ skip)
    (hl : 0 < limit) (h200 : r.status ≠ 200) :
    (400 ≤ r.status ∧ r.status < 600 →
      fetch_polls skip limit (Net.resp r) =
        (Except.error (.requestException "Failed to fetch polls"), true)) ∧
    (¬ (400 ≤ r.status ∧ r.status < 600) →
      fetch_polls skip limit (Net.resp r) = (Except.ok none, true)) := by
  have h1 : ¬ skip < 0 := not_lt.mpr hsk
  have h2 : ¬ limit ≤ 0 := not_le.mpr hl
  constructor
  · intro h
    simp [fetch_polls, tryRequest, h1, h2, h200, raise_for_status, h, isRequestExc]
  · intro h
    simp [fetch_polls, tryRequest, h1, h2, h200, raise_for_status, h, isRequestExc]

theorem c8_witness :
    fetch_polls 0 10 (Net.resp ⟨500, "Internal Server Error", none⟩) =
      (Except.error (.requestException "Failed to fetch polls"), true) :=
  (c8_non_200_behaviour 0 10 ⟨500, "Internal Server Error", none⟩ (by decide) (by decide)
    (by decide)).1 (by decide)

/-- C9: with a valid poll id, for any response status other than 200 and
404, `get_poll_results_with_error_handling` returns a failure whose
message is "HTTP <status>: <reason>", except that when the response body
parses as a JSON object containing a "detail" key the message is that
detail value instead. -/
theorem c9_error_message_detail (pid : Int) (r : Resp) (hp : 0 < pid)
    (h200 : r.status ≠ 200) (h404 : r.status ≠ 404) :
    get_poll_results_with_error_handling pid (Net.resp r) =
      (false, Json.null,
        match r.body with
        | some (Json.obj fields) =>
          (match lookupField fields "detail" with
            | some v => v
            | none => Json.str ("HTTP " ++ toString r.status ++ ": " ++ r.reason))
        | _ => Json.str ("HTTP " ++ toString r.status ++ ": " ++ r.reason)) := by
  have hnp : ¬ pid ≤ 0 := not_le.mpr hp
  rcases hb : r.body with _ | j
  · simp [get_poll_results_with_error_handling, hnp, h200, h404, hb]
  · cases j <;> simp [get_poll_results_with_error_handling, hnp, h200, h404, hb]

theorem c9_witness :
    get_poll_results_with_error_handling 2
        (Net.resp ⟨500, "Internal Server Error",
          some (Json.obj [("detail", Json.str "boom")])⟩) =
      (false, Json.null, Json.str "boom") := by
  have h := c9_error_message_detail 2
    ⟨500, "Internal Server Error", some (Json.obj [("detail", Json.str "boom")])⟩
    (by decide) (by decide) (by decide)
  exact h

/-- C10 counterexample: a 200 response whose body is JSON `null` yields
`(True, None, None)` — `results_data` is `None` although `success` is
`True` — and a 503 response whose JSON body carries a null `detail` yields
`(False, None, None)` — `error_message` is `None` although `success` is
`False`. -/
theorem c10_counterexample :
    get_poll_results_with_error_handling 1 (Net.resp ⟨200, "OK", some Json.null⟩) =
      (true, Json.null, Json.null) ∧
    get_poll_results_with_error_handling 1
        (Net.resp ⟨503, "Service Unavailable", some (Json.obj [("detail", Json.null)])⟩) =
      (false, Json.null, Json.null) :=
  ⟨rfl, rfl⟩

/-- C10 (amended): `get_poll_results_with_error_handling` is a total
function — it never raises — and for every input and outcome its triple
satisfies: when `success` is `True` the `error_message` is `None`, and
when `success` is `False` the `results_data` is `None`.  The two converses
claimed (success iff no error message, success iff non-None data) fail,
per the counterexample. -/
theorem c10_triple_shape (pid : Int) (net : Net) :
    ((get_poll_results_with_error_handling pid net).1 = true ∧
      (get_poll_results_with_error_handling pid net).2.2 = Json.null) ∨
    ((get_poll_results_with_error_handling pid net).1 = false ∧
      (get_poll_results_with_error_handling pid net).2.1 = Json.null) := by
  by_cases hpid : pid ≤ 0
  · simp [get_poll_results_with_error_handling, hpid]
  · rcases net with r | m | m | m
    · by_cases h200 : r.status = 200
      · rcases hb : r.body with _ | j
        · simp [get_poll_results_with_error_handling, hpid, h200, hb]
        · simp [get_poll_results_with_error_handling, hpid, h200, hb]
      · by_cases h404 : r.status = 404
        · simp [get_poll_results_with_error_handling, hpid, h200, h404]
        · rcases hb : r.body with _ | j
          · simp [get_poll_results_with_error_handling, hpid, h200, h404, hb]
          · cases j <;> simp [get_poll_results_with_error_handling, hpid, h200, h404, hb]
    · simp [get_poll_results_with_error_handling, hpid]
    · simp [get_poll_results_with_error_handling, hpid]
    · simp [get_poll_results_with_error_handling, hpid]

end Polly
